import Mathlib

/-!
Verification of the VESPA student-coach backend core.

This file gives a shallow embedding, in Lean 4, of the algorithmic core of the
student-coach service (file app.py and file knowledge_base/app.py):
qualification-type normalisation, qualification detail extraction, grade-point
resolution, MEG (minimum expected grade) resolution over percentile band
tables, the VESPA score-to-category mapping, and the chat-turn activity
retrieval and gating logic.  Python strings are modelled by Lean String
(a structure over List Char), Python floats by rationals, Python dicts by
association lists, and data loaded from external JSON files (grade-point
tables, ALPS band tables, the activity catalogue) by explicit parameters.
Each theorem below settles one claim about this code.
-/

/-! ## String helpers modelling the Python string primitives used by the code -/

/-- Decides whether the first list is a prefix of the second. -/
def listPre : List Char → List Char → Bool
  | [], _ => true
  | _ :: _, [] => false
  | a :: as, b :: bs => a = b && listPre as bs

/-- Decides whether the needle occurs as a contiguous sublist of the hay:
the model of the Python substring test (needle in hay). -/
def listSub (needle : List Char) : List Char → Bool
  | [] => needle.isEmpty
  | b :: bs => listPre needle (b :: bs) || listSub needle bs

/-- Model of Python str.lower(). -/
def pyLower (s : String) : String := ⟨s.data.map Char.toLower⟩

/-- Model of Python str.upper(). -/
def pyUpper (s : String) : String := ⟨s.data.map Char.toUpper⟩

/-- The Python expression (needle in hay) on strings. -/
def containsSub (hay needle : String) : Bool := listSub needle.data hay.data

/-- Whitespace predicate used by the strip model. -/
def wsChar (c : Char) : Bool := c.isWhitespace

/-- Model of Python str.strip() on the underlying character list. -/
def pyStripL (l : List Char) : List Char := (l.dropWhile wsChar).rdropWhile wsChar

/-- Model of Python str.strip(). -/
def pyStrip (s : String) : String := ⟨pyStripL s.data⟩

/-- Model of Python dict.get: first binding of the key in an association list. -/
def alookup {α : Type} : List (String × α) → String → Option α
  | [], _ => none
  | (k, v) :: rest, key => if k = key then some v else alookup rest key

/-- Model of Python str.split() (split on whitespace runs, no empty parts);
the accumulator holds the current word reversed. -/
def splitWsL : List Char → List Char → List String
  | [], acc => if acc.isEmpty then [] else [⟨acc.reverse⟩]
  | c :: rest, acc =>
    if wsChar c then
      (if acc.isEmpty then splitWsL rest [] else (⟨acc.reverse⟩ : String) :: splitWsL rest [])
    else splitWsL rest (c :: acc)

/-- Model of Python str.split(). -/
def splitWs (s : String) : List String := splitWsL s.data []

/-- Model of Python " ".join(l). -/
def joinSpace : List String → String
  | [] => ""
  | [s] => s
  | s :: rest => s ++ " " ++ joinSpace rest

/-! ## The closed QualificationType set of the specification data model,
as the canonical label strings actually produced by the code. -/

/-- The closed QualificationType set of the spec (section 3), as canonical labels. -/
def QualificationTypeSet : List String :=
  ["A Level", "AS Level", "IB HL", "IB SL",
   "BTEC Level 3 Extended Diploma", "BTEC Level 3 Diploma",
   "BTEC Level 3 Subsidiary Diploma", "BTEC Level 3 Extended Certificate",
   "BTEC Level 3",
   "Pre-U Principal Subject", "Pre-U Short Course",
   "WJEC Level 3 Diploma", "WJEC Level 3 Certificate",
   "UAL Level 3 Diploma", "UAL Level 3 Extended Diploma", "UAL Level 3",
   "CACHE Level 3 Extended Diploma", "CACHE Level 3 Diploma",
   "CACHE Level 3 Certificate", "CACHE Level 3 Award", "CACHE Level 3",
   "Unknown"]

namespace StudentApp

/-- Decision chain of normalize_qualification_type (app.py lines 486-549),
with the substring-test outcomes passed as plain booleans in source order:
aLev, asLev, ibHl, ibSl; btec with extDip, dipNotExt, subsid, cert; preU with
short; ual with ualExt, ualDip; cache with cExt, cDip, cCert, cAward.  The
argument t is the already-stripped exam-type string, echoed when nothing
matches. -/
def normSelect (t : String) (aLev asLev ibHl ibSl btec extDip dipNotExt subsid cert
    preU short ual ualExt ualDip cache cExt cDip cCert cAward : Bool) : String :=
  cond aLev "A Level"
  (cond asLev "AS Level"
  (cond ibHl "IB HL"
  (cond ibSl "IB SL"
  (cond btec
    (cond extDip "BTEC Level 3 Extended Diploma"
     (cond dipNotExt "BTEC Level 3 Diploma"
     (cond subsid "BTEC Level 3 Subsidiary Diploma"
     (cond cert "BTEC Level 3 Extended Certificate"
     "BTEC Level 3"))))
  (cond preU
    (cond short "Pre-U Short Course" "Pre-U Principal Subject")
  (cond ual
    (cond ualExt "UAL Level 3 Extended Diploma"
     (cond ualDip "UAL Level 3 Diploma"
     "UAL Level 3"))
  (cond cache
    (cond cExt "CACHE Level 3 Extended Diploma"
     (cond cDip "CACHE Level 3 Diploma"
     (cond cCert "CACHE Level 3 Certificate"
     (cond cAward "CACHE Level 3 Award"
     "CACHE Level 3"))))
  t)))))))

/-- Body of normalize_qualification_type (app.py lines 493-549) after the
initial empty-check and strip: every test is a case-insensitive substring
check on the uppercased stripped string, in source order. -/
def normCore (t : String) : String :=
  normSelect t
    (containsSub (pyUpper t) "A LEVEL" || containsSub (pyUpper t) "A-LEVEL" ||
     containsSub (pyUpper t) "A2" || containsSub (pyUpper t) "ALEVEL")
    (containsSub (pyUpper t) "AS LEVEL" || containsSub (pyUpper t) "AS-LEVEL")
    (containsSub (pyUpper t) "IB HL" ||
     containsSub (pyUpper t) "INTERNATIONAL BACCALAUREATE HL")
    (containsSub (pyUpper t) "IB SL" ||
     containsSub (pyUpper t) "INTERNATIONAL BACCALAUREATE SL")
    (containsSub (pyUpper t) "BTEC")
    (containsSub (pyUpper t) "EXTENDED DIPLOMA")
    (containsSub (pyUpper t) "DIPLOMA" && !containsSub (pyUpper t) "EXTENDED")
    (containsSub (pyUpper t) "SUBSIDIARY")
    (containsSub (pyUpper t) "CERTIFICATE")
    (containsSub (pyUpper t) "PRE-U" || containsSub (pyUpper t) "PRE U")
    (containsSub (pyUpper t) "SHORT")
    (containsSub (pyUpper t) "UAL")
    (containsSub (pyUpper t) "EXTENDED")
    (containsSub (pyUpper t) "DIPLOMA")
    (containsSub (pyUpper t) "CACHE")
    (containsSub (pyUpper t) "EXTENDED")
    (containsSub (pyUpper t) "DIPLOMA")
    (containsSub (pyUpper t) "CERTIFICATE")
    (containsSub (pyUpper t) "AWARD")

/-- normalize_qualification_type from app.py (lines 486-549): empty input
returns "Unknown"; otherwise the input is stripped and matched; when nothing
matches, the stripped input itself is returned. -/
def normalize_qualification_type (exam_type_str : String) : String :=
  if exam_type_str = "" then "Unknown" else normCore (pyStrip exam_type_str)

/-- The literal labels that normCore can return other than its echo branch. -/
def appNormLabels : List String :=
  ["A Level", "AS Level", "IB HL", "IB SL",
   "BTEC Level 3 Extended Diploma", "BTEC Level 3 Diploma",
   "BTEC Level 3 Subsidiary Diploma", "BTEC Level 3 Extended Certificate",
   "BTEC Level 3", "Pre-U Short Course", "Pre-U Principal Subject",
   "UAL Level 3 Extended Diploma", "UAL Level 3 Diploma", "UAL Level 3",
   "CACHE Level 3 Extended Diploma", "CACHE Level 3 Diploma",
   "CACHE Level 3 Certificate", "CACHE Level 3 Award", "CACHE Level 3",
   "Unknown"]

end StudentApp

namespace KnowledgeBaseApp

/-- Decision chain of normalize_qualification_type from knowledge_base/app.py
(lines 155-200), with the substring-test outcomes passed as plain booleans in
source order.  Unlike the main app version there is no echo branch: every
fall-through returns "A Level". -/
def kbNormSelect (aLev asLev btec bExtDip bDip bSubDip wjec wDip cache cExtDip cDip cAward
    ual uExtDip ib ibHl ibSl preU short : Bool) : String :=
  cond aLev "A Level"
  (cond asLev "AS Level"
  (cond btec
    (cond bExtDip "BTEC Level 3 Extended Diploma"
     (cond bDip "BTEC Level 3 Diploma"
     (cond bSubDip "BTEC Level 3 Subsidiary Diploma"
     "BTEC Level 3 Extended Certificate")))
  (cond wjec
    (cond wDip "WJEC Level 3 Diploma" "WJEC Level 3 Certificate")
  (cond cache
    (cond cExtDip "CACHE Level 3 Extended Diploma"
     (cond cDip "CACHE Level 3 Diploma"
     (cond cAward "CACHE Level 3 Award"
     "CACHE Level 3 Certificate")))
  (cond ual
    (cond uExtDip "UAL Level 3 Extended Diploma" "UAL Level 3 Diploma")
  (cond ib
    (cond ibHl "IB HL" (cond ibSl "IB SL" "IB HL"))
  (cond preU
    (cond short "Pre-U Short Course" "Pre-U Principal Subject")
  "A Level")))))))

/-- Chain of substring tests of normalize_qualification_type from
knowledge_base/app.py (lines 155-200); the argument is the lowercased
input string. -/
def kbNormCore (L : String) : String :=
  kbNormSelect
    (containsSub L "a level" || containsSub L "alevel")
    (containsSub L "as level" || containsSub L "aslevel")
    (containsSub L "btec")
    (containsSub L "extended diploma" || containsSub L "ext dip")
    (containsSub L "diploma" && !containsSub L "subsidiary" &&
     !containsSub L "found" && !containsSub L "extended")
    (containsSub L "subsidiary diploma" || containsSub L "sub dip")
    (containsSub L "wjec")
    (containsSub L "diploma" || containsSub L "dip")
    (containsSub L "cache")
    (containsSub L "extended diploma" || containsSub L "ext dip")
    (containsSub L "diploma")
    (containsSub L "award")
    (containsSub L "ual")
    (containsSub L "extended diploma" || containsSub L "ext dip")
    (containsSub L "ib")
    (containsSub L "hl" || containsSub L "higher")
    (containsSub L "sl" || containsSub L "standard")
    (containsSub L "pre-u" || containsSub L "preu")
    (containsSub L "short course" || containsSub L "sc")

/-- normalize_qualification_type from knowledge_base/app.py (lines 155-200):
empty input and unrecognized input both default to "A Level". -/
def normalize_qualification_type (exam_type_str : String) : String :=
  if exam_type_str = "" then "A Level" else kbNormCore (pyLower exam_type_str)

end KnowledgeBaseApp

namespace StudentApp

/-- Detail bag built by extract_qual_details (app.py lines 119-177): the
Python dict holds only the keys it sets, modelled here by optional fields. -/
structure QualDetails where
  year : Option String := none
  size : Option String := none
  ib_level : Option String := none
  pre_u_type : Option String := none
  wjec_size : Option String := none
deriving DecidableEq

/-- BTEC year derivation of extract_qual_details (app.py lines 136-140):
2010 when the lowercased raw string mentions it, 2016 when mentioned, and
2016 as the logged default otherwise. -/
def btecYear (lower_exam_type : String) : String :=
  if containsSub lower_exam_type "2010" then "2010"
  else if containsSub lower_exam_type "2016" then "2016"
  else "2016"

/-- BTEC size derivation of extract_qual_details (app.py lines 143-155);
the Extended Certificate size key depends on the year ("CERT" for 2010,
"EXTCERT" otherwise). -/
def btecSize (lower_exam_type normalized_qual_type : String) : Option String :=
  if normalized_qual_type = "BTEC Level 3 Extended Diploma" then some "EXTDIP"
  else if normalized_qual_type = "BTEC Level 3 Diploma" then some "DIP"
  else if normalized_qual_type = "BTEC Level 3 Subsidiary Diploma" then some "SUBDIP"
  else if normalized_qual_type = "BTEC Level 3 Extended Certificate" then
    (if btecYear lower_exam_type = "2010" then some "CERT" else some "EXTCERT")
  else if containsSub lower_exam_type "foundation diploma" then some "FOUNDDIP"
  else if containsSub lower_exam_type "90 credit diploma" || containsSub lower_exam_type "90cr" then
    some "NINETY_CR"
  else none

/-- extract_qual_details from app.py (lines 119-177): derives year, size and
level attributes from the raw exam-type string and its normalized type.
Returns none when either input is empty or when the family needs no detail. -/
def extract_qual_details (exam_type_str normalized_qual_type : String) : Option QualDetails :=
  if exam_type_str = "" || normalized_qual_type = "" then none
  else if normalized_qual_type = "IB HL" then some { ib_level := some "HL" }
  else if normalized_qual_type = "IB SL" then some { ib_level := some "SL" }
  else if containsSub normalized_qual_type "BTEC" then
    some { year := some (btecYear (pyLower exam_type_str)),
           size := btecSize (pyLower exam_type_str) normalized_qual_type }
  else if containsSub normalized_qual_type "Pre-U" then
    (if normalized_qual_type = "Pre-U Principal Subject" then some { pre_u_type := some "FULL" }
     else if normalized_qual_type = "Pre-U Short Course" then some { pre_u_type := some "SC" }
     else some {})
  else if containsSub normalized_qual_type "WJEC" then
    (if normalized_qual_type = "WJEC Level 3 Diploma" then some { wjec_size := some "DIP" }
     else if normalized_qual_type = "WJEC Level 3 Certificate" then some { wjec_size := some "CERT" }
     else some { wjec_size := some "CERT" })
  else none

/-- The grade-to-points knowledge base grade_points_mapping_kb, loaded from
an external JSON file at process start: qualification label to a map from
grade label to points, modelled as association lists. -/
abbrev GPMap : Type := List (String × List (String × Int))

/-- Hard-coded A-Level fallback table of get_points (app.py lines 570-572). -/
def aLevelGradeFallbackTable : List (String × Int) :=
  [("A*", 56), ("A", 48), ("B", 40), ("C", 32), ("D", 24), ("E", 16), ("U", 0)]

/-- Fallback branch of get_points (app.py lines 567-581), taken when the
qualification has no entry (or an empty entry) in the main mapping: only
"A Level" consults the hard-coded table, everything else yields 0. -/
def aLevelFallbackPoints (normalized_qual grade_cleaned : String) : Int :=
  if normalized_qual = "A Level" then
    match alookup aLevelGradeFallbackTable grade_cleaned with
    | some p => p
    | none => 0
  else 0

/-- Alias resolution of get_points (app.py lines 586-590) for vocational
grade spellings, consulted when the direct lookup misses. -/
def aliasPoints (qual_specific_map : List (String × Int)) (grade_cleaned : String) : Option Int :=
  if grade_cleaned = "DIST*" then alookup qual_specific_map "D*"
  else if grade_cleaned = "DIST" then alookup qual_specific_map "D"
  else if grade_cleaned = "MERIT" then alookup qual_specific_map "M"
  else if grade_cleaned = "PASS" then alookup qual_specific_map "P"
  else none

/-- get_points from app.py (lines 551-600): grade to UCAS points for a
qualification type.  A None, empty or "N/A" grade short-circuits to 0; the
grade is then stripped and uppercased, the qualification normalized, and the
points looked up in the mapping with alias fallback; an absent or empty
qualification entry falls back to the hard-coded A-Level table; every failure
yields 0. -/
def get_points (grade : Option String) (qualification_type : String)
    (gradePointsMappingKb : GPMap) : Int :=
  match grade with
  | none => 0
  | some g =>
    if g = "" || g = "N/A" then 0
    else if gradePointsMappingKb.isEmpty then 0
    else
      match alookup gradePointsMappingKb (normalize_qualification_type qualification_type) with
      | none =>
        aLevelFallbackPoints (normalize_qualification_type qualification_type)
          (pyUpper (pyStrip g))
      | some qual_specific_map =>
        if qual_specific_map.isEmpty then
          aLevelFallbackPoints (normalize_qualification_type qualification_type)
            (pyUpper (pyStrip g))
        else
          match alookup qual_specific_map (pyUpper (pyStrip g)) with
          | some p => p
          | none =>
            match aliasPoints qual_specific_map (pyUpper (pyStrip g)) with
            | some p => p
            | none => 0

/-- A bound value as it sits in a loaded ALPS band row: a JSON number that
converts to float, or a value on which Python float() raises. -/
inductive BoundVal where
  | num (q : ℚ)
  | bad
deriving DecidableEq

/-- One row of an ALPS percentile band table, after resolving the historical
key spellings of get_meg_for_prior_attainment (app.py lines 654-671): lower
is the value of the first present min-score key (none when no such key),
upper likewise for the max-score keys, and meg the value of the first present
MEG key. -/
structure Band where
  lower : Option BoundVal
  upper : Option BoundVal
  meg : Option String
deriving DecidableEq

/-- MEG grade of a band row: the resolved MEG key value, defaulting to "N/A"
(app.py line 667). -/
def bandMeg (b : Band) : String := b.meg.getD "N/A"

/-- Band membership test of get_meg_for_prior_attainment (app.py lines
673-697): rows without a convertible lower bound are skipped (a conversion
error continues to the next row); with both bounds the test is half-open
(lower le score lt upper); with only a lower bound it is open-ended. -/
def bandMatches (score : ℚ) (b : Band) : Bool :=
  match b.lower with
  | some (BoundVal.num lo) =>
    match b.upper with
    | some (BoundVal.num hi) => decide (lo ≤ score ∧ score < hi)
    | some BoundVal.bad => false
    | none => decide (lo ≤ score)
  | some BoundVal.bad => false
  | none => false

/-- First-match scan over the band rows in table order (app.py lines 650-697). -/
def findBandMeg (score : ℚ) : List Band → Option String
  | [] => none
  | b :: rest => if bandMatches score b then some (bandMeg b) else findBandMeg score rest

/-- The four A-Level ALPS percentile tables loaded from external JSON files
(app.py lines 709-711 and the 75th table loaded earlier); none models a table
that failed to load (and a loaded-but-empty table behaves identically). -/
structure AlpsTables where
  t60 : Option (List Band)
  t75 : Option (List Band)
  t90 : Option (List Band)
  t100 : Option (List Band)

/-- Percentile table selection of get_meg_for_prior_attainment (app.py lines
616-630): only "A Level" has percentile tables, an unsupported percentile
falls back to the 75th, and every other qualification selects no table. -/
def selectTable (normalized_qual : String) (percentile : Int) (T : AlpsTables) :
    Option (List Band) :=
  if normalized_qual = "A Level" then
    if percentile = 60 then T.t60
    else if percentile = 75 then T.t75
    else if percentile = 90 then T.t90
    else if percentile = 100 then T.t100
    else T.t75
  else none

/-- The prior-attainment argument of get_meg_for_prior_attainment: Python
None, a value float() accepts, or a value float() rejects. -/
inductive PAInput where
  | none
  | num (q : ℚ)
  | unparsable

/-- get_meg_for_prior_attainment from app.py (lines 602-706): None or
unconvertible scores, a missing table, and a score outside every band all
resolve to ("N/A", 0); on the first matching band the row MEG grade is
returned along with get_points of that grade for the same normalized
qualification. -/
def get_meg_for_prior_attainment (prior_attainment_score : PAInput)
    (qualification_type : String) (percentile : Int) (T : AlpsTables)
    (gradePointsMappingKb : GPMap) : String × Int :=
  match prior_attainment_score with
  | PAInput.none => ("N/A", 0)
  | PAInput.unparsable => ("N/A", 0)
  | PAInput.num score =>
    match selectTable (normalize_qualification_type qualification_type) percentile T with
    | none => ("N/A", 0)
    | some bands =>
      match findBandMeg score bands with
      | some g =>
        (g, get_points (some g) (normalize_qualification_type qualification_type)
              gradePointsMappingKb)
      | none => ("N/A", 0)

/-- The score argument of get_score_profile_text: Python None, a value
float() accepts, or a value float() rejects. -/
inductive ScoreInput where
  | none
  | num (q : ℚ)
  | nonNumeric

/-- get_score_profile_text from app.py (lines 365-377): maps a VESPA score to
High (8 and above), Medium (6 to 8), Low (4 to 6), Very Low (0 to 4); None,
unconvertible values and negative scores all give "N/A". -/
def get_score_profile_text (score_value : ScoreInput) : String :=
  match score_value with
  | ScoreInput.none => "N/A"
  | ScoreInput.nonNumeric => "N/A"
  | ScoreInput.num score =>
    if score ≥ 8 then "High"
    else if score ≥ 6 then "Medium"
    else if score ≥ 4 then "Low"
    else if score ≥ 0 then "Very Low"
    else "N/A"

end StudentApp

namespace StudentApp

/-- One chat-history message as consumed by chat_turn (app.py line 1446). -/
structure ChatMsg where
  role : String
  content : String

/-- Conversation depth of chat_turn (app.py line 1485): the number of
messages in the supplied history whose role is "user". -/
def conversationDepth (chat_history : List ChatMsg) : Nat :=
  (chat_history.filter (fun m => m.role = "user")).length

/-- The explicit activity-request phrases of chat_turn (app.py lines
1488-1491). -/
def activityRequestPhrases : List String :=
  ["suggest an activity", "recommend an activity", "what activity", "any activities",
   "activity suggestion", "activity recommendation", "yes please suggest", "yes, suggest"]

/-- user_asking_for_activity of chat_turn (app.py lines 1488-1491): any of
the request phrases occurs in the lowercased current user message. -/
def userAskingForActivity (current_user_message : String) : Bool :=
  activityRequestPhrases.any (fun p => containsSub (pyLower current_user_message) p)

/-- One entry of the VESPA activities catalogue (vespa_activities_kb.json,
loaded once at process start), with the fields read by chat_turn. -/
structure Activity where
  id : String
  name : String
  short_summary : String
  pdf_link : String
  vespa_element : String
  level : String
  keywords : List String
deriving DecidableEq

/-- Primary activity retrieval of chat_turn (app.py lines 1763-1777): walk
the activity ids linked from the coaching-questions knowledge base in order,
resolve each against the catalogue, and stop after two resolved activities;
cnt is the running activity_count_primary. -/
def primaryActivities (catalogue : List Activity) : List String → Nat → List Activity
  | [], _ => []
  | act_id :: rest, cnt =>
    if 2 ≤ cnt then []
    else
      match catalogue.find? (fun a => a.id = act_id) with
      | some a => a :: primaryActivities catalogue rest (cnt + 1)
      | none => primaryActivities catalogue rest cnt

/-- Stop-word list of the fallback keyword search (app.py line 1784). -/
def commonWordsFilter : List String :=
  ["is", "a", "the", "and", "to", "of", "it", "in", "for", "on", "with", "as", "an",
   "at", "by", "my", "i", "me", "what", "how", "help", "can", "some", "this", "that",
   "area", "areas", "score", "scores"]

/-- Punctuation removal of the fallback keyword search (app.py lines
1786-1787). -/
def stripPunct (s : String) : String :=
  ⟨s.data.filter (fun c => !([ '?', '.', ',', '\'', '\x22', '!' ].contains c))⟩

/-- keywords_from_query of chat_turn (app.py lines 1784-1788): lowercase the
message, remove punctuation, split on whitespace, and keep words longer than
three characters that are not stop words. -/
def keywordsFromQuery (current_user_message : String) : List String :=
  (splitWs (stripPunct (pyLower current_user_message))).filter
    (fun w => !commonWordsFilter.contains w && 3 < w.length)

/-- Context-theme word lists of the fallback activity scoring (app.py lines
1812-1817). -/
def contextKeywordsMap : List (String × List String) :=
  [("active_learning",
    ["flashcard", "test", "quiz", "retrieval", "practice", "leitner", "command verb",
     "past paper", "exam paper", "mock exam", "question practice", "self-testing",
     "spaced repetition", "interleaving"]),
   ("organization",
    ["plan", "schedule", "diary", "timetable", "system", "organize", "task management",
     "prioritization", "notes"]),
   ("mindset",
    ["confidence", "stress", "anxiety", "belief", "attitude", "resilience",
     "growth mindset", "coping"]),
   ("goal_setting",
    ["goal", "target", "vision", "future", "career", "aspiration", "objective", "plan"])]

/-- Relevance score of one activity in the fallback keyword search (app.py
lines 1795-1823): 5 per query keyword in the name, 4 per query keyword that
is an exact member of the activity keyword list, 1 per query keyword in the
summary, 3 when the inferred VESPA element matches the activity facet, and,
for each context theme mentioned in the message, 2 per theme word present in
the activity corpus. -/
def scoreActivity (keywords_from_query : List String) (inferred_vespa_element : Option String)
    (current_user_message : String) (a : Activity) : Nat :=
  (keywords_from_query.map (fun kw =>
      (if containsSub (pyLower a.name) kw then 5 else 0) +
      (if (a.keywords.map pyLower).contains kw then 4 else 0) +
      (if containsSub (pyLower a.short_summary) kw then 1 else 0))).sum +
  (match inferred_vespa_element with
   | some el => if pyLower a.vespa_element = pyLower el then 3 else 0
   | none => 0) +
  (contextKeywordsMap.map (fun p =>
      if p.2.any (fun w => containsSub (pyLower current_user_message) w) then
        2 * (p.2.filter (fun w =>
              containsSub (pyLower a.name ++ " " ++ joinSpace (a.keywords.map pyLower) ++
                " " ++ pyLower a.short_summary) w)).length
      else 0)).sum

/-- A scored catalogue entry: relevance score, catalogue index, activity. -/
abbrev ScoredAct : Type := Nat × Nat × Activity

/-- Ordering used to model the Python stable sort by descending relevance
(app.py line 1828): x precedes y when its score is higher, or on equal scores
when its catalogue index is not larger. -/
def ordBefore (x y : ScoredAct) : Bool :=
  decide (y.1 < x.1) || (decide (x.1 = y.1) && decide (x.2.1 ≤ y.2.1))

/-- Insertion into a list sorted by ordBefore. -/
def insertScored (x : ScoredAct) : List ScoredAct → List ScoredAct
  | [] => [x]
  | y :: ys => if ordBefore x y then x :: y :: ys else y :: insertScored x ys

/-- The sort of scored_activities_list (app.py line 1828): Python
list.sort(reverse=True) on scores is stable, hence equal to sorting by the
total order ordBefore (score descending, catalogue index ascending). -/
def sortScored : List ScoredAct → List ScoredAct
  | [] => []
  | x :: xs => insertScored x (sortScored xs)

/-- The scored candidate list of the fallback search (app.py lines
1794-1826): each catalogue activity with its index and relevance score, kept
when the score exceeds 3. -/
def enumScored (catalogue : List Activity) (keywords_from_query : List String)
    (inferred_vespa_element : Option String) (current_user_message : String) :
    List ScoredAct :=
  (catalogue.enum.map (fun p =>
      ((scoreActivity keywords_from_query inferred_vespa_element current_user_message p.2,
        p.1, p.2) : ScoredAct))).filter (fun x => 3 < x.1)

/-- Deduplication by activity id over processed_activity_ids (app.py lines
1830-1842); seen collects ids already surfaced. -/
def dedupById : List ScoredAct → List String → List ScoredAct
  | [], _ => []
  | x :: rest, seen =>
    if seen.contains x.2.2.id then dedupById rest seen
    else x :: dedupById rest (x.2.2.id :: seen)

/-- The fallback activity list of chat_turn (app.py lines 1794-1842): score
the catalogue, keep scores above 3, sort by score descending with the stable
tie order, take the top two, and deduplicate by id. -/
def fallbackActivities (catalogue : List Activity) (keywords_from_query : List String)
    (inferred_vespa_element : Option String) (current_user_message : String) :
    List ScoredAct :=
  dedupById ((sortScored (enumScored catalogue keywords_from_query inferred_vespa_element
      current_user_message)).take 2) []

/-- The suggested activities a chat turn assembles into its coaching context
(app.py lines 1744-1847).  The primary path requires a resolved target VESPA
element, the gate conversation_depth at least 1 or an explicit activity
request, and nonempty linked ids; the fallback path runs only when the
primary path produced nothing, under the same depth-or-request gate, and only
when the query yields keywords. -/
def assembledActivities (chat_history : List ChatMsg) (current_user_message : String)
    (hasTarget : Bool) (retrieved_activity_ids : List String) (catalogue : List Activity)
    (inferred_vespa_element : Option String) : List Activity :=
  let depth := conversationDepth chat_history
  let asking := userAskingForActivity current_user_message
  let primary :=
    if hasTarget && (decide (1 ≤ depth) || asking) && !retrieved_activity_ids.isEmpty then
      primaryActivities catalogue retrieved_activity_ids 0
    else []
  let fallback :=
    if primary.isEmpty && (decide (1 ≤ depth) || asking) &&
       !(keywordsFromQuery current_user_message).isEmpty then
      (fallbackActivities catalogue (keywordsFromQuery current_user_message)
          inferred_vespa_element current_user_message).map (fun x => x.2.2)
    else []
  primary ++ fallback

end StudentApp

namespace StudentApp

/-- The rational value of the decimal literal 6.5 (numerator 13, denominator
2), written as an explicit normalized fraction. -/
def sixPointFive : ℚ := ⟨13, 2, by norm_num, by norm_num⟩

/-- The rational value of the decimal literal 6.8 (numerator 34, denominator
5), written as an explicit normalized fraction. -/
def sixPointEight : ℚ := ⟨34, 5, by norm_num, by norm_num⟩

/-- The A-Level 75th-percentile band row of spec Example 3: the half-open
score range 6.5 to 7.0 mapping to MEG grade "B". -/
def exampleBand : Band :=
  { lower := some (BoundVal.num sixPointFive),
    upper := some (BoundVal.num ((7 : ℚ))),
    meg := some "B" }

/-- Loaded ALPS tables holding only a one-row 75th-percentile table, for the
concrete instance of spec Example 3. -/
def exampleTables : AlpsTables :=
  { t60 := none, t75 := some [exampleBand], t90 := none, t100 := none }

/-- A chat history with exactly one prior user message. -/
def cxHistory : List ChatMsg := [{ role := "user", content := "hi" }]

/-- A catalogue activity used by the phase-gate counterexample. -/
def cxActivity : Activity :=
  { id := "act1", name := "Managing Exam Stress", short_summary := "Coping techniques",
    pdf_link := "#", vespa_element := "Attitude", level := "Level 3", keywords := [] }

end StudentApp

/-! ## Theorems -/

theorem pyStripL_idem (l : List Char) : pyStripL (pyStripL l) = pyStripL l := by
  unfold pyStripL
  have h1 : List.dropWhile wsChar ((l.dropWhile wsChar).rdropWhile wsChar) =
      (l.dropWhile wsChar).rdropWhile wsChar := by
    rw [List.dropWhile_eq_self_iff]
    intro hl hp
    have hpre := List.rdropWhile_prefix wsChar (l.dropWhile wsChar)
    have hlen : 0 < (l.dropWhile wsChar).length := lt_of_lt_of_le hl hpre.length_le
    have hget : ((l.dropWhile wsChar).rdropWhile wsChar).get ⟨0, hl⟩ =
        (l.dropWhile wsChar).get ⟨0, hlen⟩ := by
      simpa using List.IsPrefix.getElem hpre hl
    exact List.dropWhile_get_zero_not wsChar l hlen (hget ▸ hp)
  rw [h1, List.rdropWhile_idempotent]

theorem pyStrip_idem (s : String) : pyStrip (pyStrip s) = pyStrip s := by
  unfold pyStrip
  exact congrArg String.mk (pyStripL_idem s.data)

theorem alookup_mem {α : Type} (l : List (String × α)) (key : String) (v : α)
    (h : alookup l key = some v) : (key, v) ∈ l := by
  induction l with
  | nil => simp [alookup] at h
  | cons p rest ih =>
    obtain ⟨k, w⟩ := p
    unfold alookup at h
    by_cases hk : k = key
    · rw [if_pos hk] at h
      subst hk
      simp at h
      subst h
      exact List.mem_cons_self _ _
    · rw [if_neg hk] at h
      exact List.mem_cons_of_mem _ (ih h)

theorem normSelect_elim (P : String → Prop) (t : String)
    (e1 : P "A Level") (e2 : P "AS Level") (e3 : P "IB HL") (e4 : P "IB SL")
    (e5 : P "BTEC Level 3 Extended Diploma") (e6 : P "BTEC Level 3 Diploma")
    (e7 : P "BTEC Level 3 Subsidiary Diploma")
    (e8 : P "BTEC Level 3 Extended Certificate")
    (e9 : P "BTEC Level 3") (e10 : P "Pre-U Short Course")
    (e11 : P "Pre-U Principal Subject") (e12 : P "UAL Level 3 Extended Diploma")
    (e13 : P "UAL Level 3 Diploma") (e14 : P "UAL Level 3")
    (e15 : P "CACHE Level 3 Extended Diploma") (e16 : P "CACHE Level 3 Diploma")
    (e17 : P "CACHE Level 3 Certificate") (e18 : P "CACHE Level 3 Award")
    (e19 : P "CACHE Level 3") (et : P t)
    (aLev asLev ibHl ibSl btec extDip dipNotExt subsid cert
     preU short ual ualExt ualDip cache cExt cDip cCert cAward : Bool) :
    P (StudentApp.normSelect t aLev asLev ibHl ibSl btec extDip dipNotExt subsid cert
        preU short ual ualExt ualDip cache cExt cDip cCert cAward) := by
  cases aLev with
  | true => exact e1
  | false =>
  cases asLev with
  | true => exact e2
  | false =>
  cases ibHl with
  | true => exact e3
  | false =>
  cases ibSl with
  | true => exact e4
  | false =>
  cases btec with
  | true =>
    cases extDip with
    | true => exact e5
    | false =>
    cases dipNotExt with
    | true => exact e6
    | false =>
    cases subsid with
    | true => exact e7
    | false =>
    cases cert with
    | true => exact e8
    | false => exact e9
  | false =>
  cases preU with
  | true =>
    cases short with
    | true => exact e10
    | false => exact e11
  | false =>
  cases ual with
  | true =>
    cases ualExt with
    | true => exact e12
    | false =>
    cases ualDip with
    | true => exact e13
    | false => exact e14
  | false =>
  cases cache with
  | true =>
    cases cExt with
    | true => exact e15
    | false =>
    cases cDip with
    | true => exact e16
    | false =>
    cases cCert with
    | true => exact e17
    | false =>
    cases cAward with
    | true => exact e18
    | false => exact e19
  | false => exact et

theorem normCore_cases (t : String) :
    StudentApp.normCore t = t ∨ StudentApp.normCore t ∈ StudentApp.appNormLabels := by
  unfold StudentApp.normCore
  refine normSelect_elim (fun r => r = t ∨ r ∈ StudentApp.appNormLabels) t
    (Or.inr (by decide)) (Or.inr (by decide)) (Or.inr (by decide)) (Or.inr (by decide))
    (Or.inr (by decide)) (Or.inr (by decide)) (Or.inr (by decide)) (Or.inr (by decide))
    (Or.inr (by decide)) (Or.inr (by decide)) (Or.inr (by decide)) (Or.inr (by decide))
    (Or.inr (by decide)) (Or.inr (by decide)) (Or.inr (by decide)) (Or.inr (by decide))
    (Or.inr (by decide)) (Or.inr (by decide)) (Or.inr (by decide)) (Or.inl rfl)
    _ _ _ _ _ _ _ _ _ _ _ _ _ _ _ _ _ _ _

theorem kbNormSelect_elim (P : String → Prop)
    (e1 : P "A Level") (e2 : P "AS Level") (e3 : P "BTEC Level 3 Extended Diploma")
    (e4 : P "BTEC Level 3 Diploma") (e5 : P "BTEC Level 3 Subsidiary Diploma")
    (e6 : P "BTEC Level 3 Extended Certificate") (e7 : P "WJEC Level 3 Diploma")
    (e8 : P "WJEC Level 3 Certificate") (e9 : P "CACHE Level 3 Extended Diploma")
    (e10 : P "CACHE Level 3 Diploma") (e11 : P "CACHE Level 3 Award")
    (e12 : P "CACHE Level 3 Certificate") (e13 : P "UAL Level 3 Extended Diploma")
    (e14 : P "UAL Level 3 Diploma") (e15 : P "IB HL") (e16 : P "IB SL")
    (e17 : P "Pre-U Short Course") (e18 : P "Pre-U Principal Subject")
    (aLev asLev btec bExtDip bDip bSubDip wjec wDip cache cExtDip cDip cAward
     ual uExtDip ib ibHl ibSl preU short : Bool) :
    P (KnowledgeBaseApp.kbNormSelect aLev asLev btec bExtDip bDip bSubDip wjec wDip cache
        cExtDip cDip cAward ual uExtDip ib ibHl ibSl preU short) := by
  cases aLev with
  | true => exact e1
  | false =>
  cases asLev with
  | true => exact e2
  | false =>
  cases btec with
  | true =>
    cases bExtDip with
    | true => exact e3
    | false =>
    cases bDip with
    | true => exact e4
    | false =>
    cases bSubDip with
    | true => exact e5
    | false => exact e6
  | false =>
  cases wjec with
  | true =>
    cases wDip with
    | true => exact e7
    | false => exact e8
  | false =>
  cases cache with
  | true =>
    cases cExtDip with
    | true => exact e9
    | false =>
    cases cDip with
    | true => exact e10
    | false =>
    cases cAward with
    | true => exact e11
    | false => exact e12
  | false =>
  cases ual with
  | true =>
    cases uExtDip with
    | true => exact e13
    | false => exact e14
  | false =>
  cases ib with
  | true =>
    cases ibHl with
    | true => exact e15
    | false =>
    cases ibSl with
    | true => exact e16
    | false => exact e15
  | false =>
  cases preU with
  | true =>
    cases short with
    | true => exact e17
    | false => exact e18
  | false => exact e1

theorem kbNormCore_mem (L : String) :
    KnowledgeBaseApp.kbNormCore L ∈ QualificationTypeSet := by
  unfold KnowledgeBaseApp.kbNormCore
  refine kbNormSelect_elim (fun r => r ∈ QualificationTypeSet)
    (by decide) (by decide) (by decide) (by decide) (by decide) (by decide)
    (by decide) (by decide) (by decide) (by decide) (by decide) (by decide)
    (by decide) (by decide) (by decide) (by decide) (by decide) (by decide)
    _ _ _ _ _ _ _ _ _ _ _ _ _ _ _ _ _ _ _

theorem normalize_cases (x : String) :
    StudentApp.normalize_qualification_type x = pyStrip x ∨
    StudentApp.normalize_qualification_type x ∈ StudentApp.appNormLabels := by
  unfold StudentApp.normalize_qualification_type
  split
  · right; decide
  · exact normCore_cases (pyStrip x)

/-- Claim C1, counterexample: the main app's normalize_qualification_type
(app.py lines 486-549) echoes an unrecognized raw exam-type string back
verbatim — "xyz" is returned as "xyz", which is not a member of the closed
QualificationType set — and maps empty input to "Unknown", not to the
documented default "A Level".  This refutes the claim that normalization
never returns the raw string and defaults to A-Level. -/
theorem c1_counterexample :
    StudentApp.normalize_qualification_type "xyz" = "xyz" ∧
    "xyz" ∉ QualificationTypeSet ∧
    StudentApp.normalize_qualification_type "" ≠ "A Level" := by
  refine ⟨by decide, by decide, by decide⟩

/-- Claim C1, amended: the knowledge-base normalizer
(knowledge_base/app.py lines 155-200) always returns a member of the closed
QualificationType set, and maps empty input as well as any input containing
no family marker to the default "A Level"; the main app's normalizer
(app.py lines 486-549) instead returns "Unknown" for empty input. -/
theorem c1_amended :
    (∀ s, KnowledgeBaseApp.normalize_qualification_type s ∈ QualificationTypeSet) ∧
    (∀ s, containsSub (pyLower s) "a level" = false → containsSub (pyLower s) "alevel" = false →
      containsSub (pyLower s) "as level" = false → containsSub (pyLower s) "aslevel" = false →
      containsSub (pyLower s) "btec" = false → containsSub (pyLower s) "wjec" = false →
      containsSub (pyLower s) "cache" = false → containsSub (pyLower s) "ual" = false →
      containsSub (pyLower s) "ib" = false → containsSub (pyLower s) "pre-u" = false →
      containsSub (pyLower s) "preu" = false →
      KnowledgeBaseApp.normalize_qualification_type s = "A Level") ∧
    StudentApp.normalize_qualification_type "" = "Unknown" := by
  refine ⟨?_, ?_, by decide⟩
  · intro s
    unfold KnowledgeBaseApp.normalize_qualification_type
    split
    · decide
    · exact kbNormCore_mem (pyLower s)
  · intro s h1 h2 h3 h4 h5 h6 h7 h8 h9 h10 h11
    simp [KnowledgeBaseApp.normalize_qualification_type, KnowledgeBaseApp.kbNormCore,
      KnowledgeBaseApp.kbNormSelect, h1, h2, h3, h4, h5, h6, h7, h8, h9, h10, h11]

/-- Claim C1, witness for the amended theorem at concrete inputs. -/
theorem c1_witness :
    KnowledgeBaseApp.normalize_qualification_type "Cambridge Technical" ∈ QualificationTypeSet ∧
    KnowledgeBaseApp.normalize_qualification_type "xyzq" = "A Level" :=
  ⟨c1_amended.1 "Cambridge Technical",
   c1_amended.2.1 "xyzq" (by decide) (by decide) (by decide) (by decide) (by decide)
     (by decide) (by decide) (by decide) (by decide) (by decide) (by decide)⟩

/-- Claim C8, counterexample: normalization is not idempotent on its own
outputs.  The raw input "BTEC Subsidiary" normalizes to
"BTEC Level 3 Subsidiary Diploma", but normalizing that canonical label again
yields "BTEC Level 3 Diploma" (the DIPLOMA test fires before the SUBSIDIARY
test in app.py lines 508-518), so normalize(normalize(x)) differs from
normalize(x). -/
theorem c8_counterexample :
    StudentApp.normalize_qualification_type "BTEC Subsidiary" =
      "BTEC Level 3 Subsidiary Diploma" ∧
    StudentApp.normalize_qualification_type
        (StudentApp.normalize_qualification_type "BTEC Subsidiary") =
      "BTEC Level 3 Diploma" := by
  refine ⟨by decide, by decide⟩

/-- Claim C8, amended: normalize_qualification_type (app.py lines 486-549) is
idempotent on every input whose normalization is neither the label
"BTEC Level 3 Subsidiary Diploma" (which re-normalizes to
"BTEC Level 3 Diploma") nor the empty string (a whitespace-only input strips
to the empty echo, which re-normalizes to "Unknown"). -/
theorem c8_amended (x : String)
    (h1 : StudentApp.normalize_qualification_type x ≠ "BTEC Level 3 Subsidiary Diploma")
    (h2 : StudentApp.normalize_qualification_type x ≠ "") :
    StudentApp.normalize_qualification_type (StudentApp.normalize_qualification_type x) =
      StudentApp.normalize_qualification_type x := by
  rcases normalize_cases x with he | hm
  · by_cases hx : x = ""
    · rw [hx] at he
      exact absurd he (by decide)
    · have hbody : StudentApp.normalize_qualification_type x = StudentApp.normCore (pyStrip x) := by
        unfold StudentApp.normalize_qualification_type
        rw [if_neg hx]
      have hc : StudentApp.normCore (pyStrip x) = pyStrip x := by
        rw [← hbody]; exact he
      have hne : pyStrip x ≠ "" := by rw [← he]; exact h2
      rw [he]
      unfold StudentApp.normalize_qualification_type
      rw [if_neg hne, pyStrip_idem]
      exact hc
  · simp only [StudentApp.appNormLabels, List.mem_cons, List.not_mem_nil, or_false] at hm
    rcases hm with h|h|h|h|h|h|h|h|h|h|h|h|h|h|h|h|h|h|h|h
    all_goals first
      | (exact absurd h h1)
      | (rw [h]; decide)

/-- Claim C8, witness for the amended theorem at a concrete input. -/
theorem c8_witness :
    StudentApp.normalize_qualification_type (StudentApp.normalize_qualification_type "A Level") =
      StudentApp.normalize_qualification_type "A Level" :=
  c8_amended "A Level" (by decide) (by decide)

/-- Claim C10: the VESPA score-to-category mapping get_score_profile_text is
total with exactly the five labels; 8 and above is "High", 6 to 8 "Medium",
4 to 6 "Low", 0 to 4 "Very Low"; and None, non-numeric input and negative
numeric scores all yield "N/A", never "Very Low". -/
theorem c10_score_profile :
    (∀ inp, StudentApp.get_score_profile_text inp ∈
      ["High", "Medium", "Low", "Very Low", "N/A"]) ∧
    StudentApp.get_score_profile_text StudentApp.ScoreInput.none = "N/A" ∧
    StudentApp.get_score_profile_text StudentApp.ScoreInput.nonNumeric = "N/A" ∧
    (∀ q : ℚ, q < 0 → StudentApp.get_score_profile_text (StudentApp.ScoreInput.num q) = "N/A") ∧
    (∀ q : ℚ, 8 ≤ q → StudentApp.get_score_profile_text (StudentApp.ScoreInput.num q) = "High") ∧
    (∀ q : ℚ, 6 ≤ q → q < 8 →
      StudentApp.get_score_profile_text (StudentApp.ScoreInput.num q) = "Medium") ∧
    (∀ q : ℚ, 4 ≤ q → q < 6 →
      StudentApp.get_score_profile_text (StudentApp.ScoreInput.num q) = "Low") ∧
    (∀ q : ℚ, 0 ≤ q → q < 4 →
      StudentApp.get_score_profile_text (StudentApp.ScoreInput.num q) = "Very Low") := by
  refine ⟨?_, rfl, rfl, ?_, ?_, ?_, ?_, ?_⟩
  · intro inp
    cases inp with
    | none => decide
    | nonNumeric => decide
    | num q =>
      simp only [StudentApp.get_score_profile_text]
      split_ifs <;> decide
  · intro q hq
    simp only [StudentApp.get_score_profile_text]
    split_ifs <;> first | rfl | linarith
  · intro q hq
    simp only [StudentApp.get_score_profile_text]
    split_ifs <;> first | rfl | linarith
  · intro q hq1 hq2
    simp only [StudentApp.get_score_profile_text]
    split_ifs <;> first | rfl | linarith
  · intro q hq1 hq2
    simp only [StudentApp.get_score_profile_text]
    split_ifs <;> first | rfl | linarith
  · intro q hq1 hq2
    simp only [StudentApp.get_score_profile_text]
    split_ifs <;> first | rfl | linarith

/-- Claim C10, witness at concrete scores. -/
theorem c10_witness :
    StudentApp.get_score_profile_text (StudentApp.ScoreInput.num (-1)) = "N/A" ∧
    StudentApp.get_score_profile_text (StudentApp.ScoreInput.num 9) = "High" ∧
    StudentApp.get_score_profile_text (StudentApp.ScoreInput.num 7) = "Medium" ∧
    StudentApp.get_score_profile_text (StudentApp.ScoreInput.num 5) = "Low" ∧
    StudentApp.get_score_profile_text (StudentApp.ScoreInput.num 2) = "Very Low" :=
  ⟨c10_score_profile.2.2.2.1 (-1) (by decide),
   c10_score_profile.2.2.2.2.1 9 (by decide),
   c10_score_profile.2.2.2.2.2.1 7 (by decide) (by decide),
   c10_score_profile.2.2.2.2.2.2.1 5 (by decide) (by decide),
   c10_score_profile.2.2.2.2.2.2.2 2 (by decide) (by decide)⟩

/-- Claim C6: "BTEC Extended Certificate 2010" normalizes to the BTEC
Extended Certificate type, and detail extraction yields year "2010" with the
irregular band-table size key "CERT"; for any BTEC Extended Certificate raw
string that names no year, the year defaults to "2016" and the size key is
"EXTCERT". -/
theorem c6_btec_cert_keys :
    StudentApp.normalize_qualification_type "BTEC Extended Certificate 2010" =
      "BTEC Level 3 Extended Certificate" ∧
    StudentApp.extract_qual_details "BTEC Extended Certificate 2010"
        "BTEC Level 3 Extended Certificate" =
      some { year := some "2010", size := some "CERT" } ∧
    (∀ s, s ≠ "" → containsSub (pyLower s) "2010" = false →
      StudentApp.extract_qual_details s "BTEC Level 3 Extended Certificate" =
        some { year := some "2016", size := some "EXTCERT" }) := by
  refine ⟨by decide, by decide, ?_⟩
  intro s hs h2010
  have hb : containsSub "BTEC Level 3 Extended Certificate" "BTEC" = true := by decide
  simp [StudentApp.extract_qual_details, StudentApp.btecYear, StudentApp.btecSize, hs, h2010, hb]

/-- Claim C6, witness for the year-defaulting part at a concrete raw string. -/
theorem c6_witness :
    StudentApp.extract_qual_details "BTEC Extended Certificate"
        "BTEC Level 3 Extended Certificate" =
      some { year := some "2016", size := some "EXTCERT" } :=
  c6_btec_cert_keys.2.2 "BTEC Extended Certificate" (by decide) (by decide)

theorem meg_resolve_no_table (qualification_type : String) (percentile : Int)
    (T : StudentApp.AlpsTables) (kb : StudentApp.GPMap) (score : ℚ)
    (h : StudentApp.selectTable
        (StudentApp.normalize_qualification_type qualification_type) percentile T = none) :
    StudentApp.get_meg_for_prior_attainment (StudentApp.PAInput.num score)
      qualification_type percentile T kb = ("N/A", 0) := by
  simp [StudentApp.get_meg_for_prior_attainment, h]

theorem meg_resolve_no_band (qualification_type : String) (percentile : Int)
    (T : StudentApp.AlpsTables) (kb : StudentApp.GPMap) (score : ℚ)
    (bands : List StudentApp.Band)
    (h1 : StudentApp.selectTable
        (StudentApp.normalize_qualification_type qualification_type) percentile T = some bands)
    (h2 : StudentApp.findBandMeg score bands = none) :
    StudentApp.get_meg_for_prior_attainment (StudentApp.PAInput.num score)
      qualification_type percentile T kb = ("N/A", 0) := by
  simp [StudentApp.get_meg_for_prior_attainment, h1, h2]

theorem meg_resolve_first_match (qualification_type : String) (percentile : Int)
    (T : StudentApp.AlpsTables) (kb : StudentApp.GPMap) (score : ℚ)
    (bands : List StudentApp.Band) (g : String)
    (h1 : StudentApp.selectTable
        (StudentApp.normalize_qualification_type qualification_type) percentile T = some bands)
    (h2 : StudentApp.findBandMeg score bands = some g) :
    StudentApp.get_meg_for_prior_attainment (StudentApp.PAInput.num score)
      qualification_type percentile T kb =
      (g, StudentApp.get_points (some g)
            (StudentApp.normalize_qualification_type qualification_type) kb) := by
  simp [StudentApp.get_meg_for_prior_attainment, h1, h2]

/-- Claim C3: MEG resolution returns exactly ("N/A", 0) whenever the
prior-attainment input is Python None or fails float conversion, whenever no
benchmark table is available for the (qualification, percentile) request, and
whenever a parsed score falls in no band of the selected table; being a total
function, it never raises. -/
theorem c3_meg_failure_modes (qualification_type : String) (percentile : Int)
    (T : StudentApp.AlpsTables) (kb : StudentApp.GPMap) (score : ℚ) :
    StudentApp.get_meg_for_prior_attainment StudentApp.PAInput.none
      qualification_type percentile T kb = ("N/A", 0) ∧
    StudentApp.get_meg_for_prior_attainment StudentApp.PAInput.unparsable
      qualification_type percentile T kb = ("N/A", 0) ∧
    (StudentApp.selectTable (StudentApp.normalize_qualification_type qualification_type)
        percentile T = none →
      StudentApp.get_meg_for_prior_attainment (StudentApp.PAInput.num score)
        qualification_type percentile T kb = ("N/A", 0)) ∧
    (∀ bands, StudentApp.selectTable
        (StudentApp.normalize_qualification_type qualification_type) percentile T =
          some bands →
      StudentApp.findBandMeg score bands = none →
      StudentApp.get_meg_for_prior_attainment (StudentApp.PAInput.num score)
        qualification_type percentile T kb = ("N/A", 0)) :=
  ⟨rfl, rfl,
   fun h => meg_resolve_no_table qualification_type percentile T kb score h,
   fun bands h1 h2 => meg_resolve_no_band qualification_type percentile T kb score bands h1 h2⟩

/-- Claim C3, witness: a non-A-Level qualification selects no table, and an
empty loaded table matches no band; both resolve to ("N/A", 0). -/
theorem c3_witness :
    StudentApp.get_meg_for_prior_attainment (StudentApp.PAInput.num 5) "BTEC" 75
      { t60 := none, t75 := some [], t90 := none, t100 := none } [] = ("N/A", 0) ∧
    StudentApp.get_meg_for_prior_attainment (StudentApp.PAInput.num 5) "A Level" 75
      { t60 := none, t75 := some [], t90 := none, t100 := none } [] = ("N/A", 0) :=
  ⟨(c3_meg_failure_modes "BTEC" 75
      { t60 := none, t75 := some [], t90 := none, t100 := none } [] 5).2.2.1 (by decide),
   (c3_meg_failure_modes "A Level" 75
      { t60 := none, t75 := some [], t90 := none, t100 := none } [] 5).2.2.2 [] (by decide) rfl⟩

/-- Claim C4: bands are scanned in table order; a band with both bounds
matches on the half-open range (lower le score lt upper) and a band with only
a lower bound is open-ended; the first matching band stops the scan, and the
resolver returns that band's MEG grade paired with the grade-points
resolver's value for the same normalized qualification; in particular score
6.8 against an A-Level 75th-percentile table whose band is 6.5 to 7.0 with
grade "B" yields ("B", points of "B" at A-Level). -/
theorem c4_band_semantics :
    (∀ (score lo hi : ℚ) (m : Option String),
      StudentApp.bandMatches score
        { lower := some (StudentApp.BoundVal.num lo),
          upper := some (StudentApp.BoundVal.num hi), meg := m } =
        decide (lo ≤ score ∧ score < hi)) ∧
    (∀ (score lo : ℚ) (m : Option String),
      StudentApp.bandMatches score
        { lower := some (StudentApp.BoundVal.num lo), upper := none, meg := m } =
        decide (lo ≤ score)) ∧
    (∀ (score : ℚ) (b : StudentApp.Band) (rest : List StudentApp.Band),
      StudentApp.bandMatches score b = true →
      StudentApp.findBandMeg score (b :: rest) = some (StudentApp.bandMeg b)) ∧
    (∀ (score : ℚ) (b : StudentApp.Band) (rest : List StudentApp.Band),
      StudentApp.bandMatches score b = false →
      StudentApp.findBandMeg score (b :: rest) = StudentApp.findBandMeg score rest) ∧
    (∀ (qualification_type : String) (percentile : Int) (T : StudentApp.AlpsTables)
       (kb : StudentApp.GPMap) (score : ℚ) (bands : List StudentApp.Band) (g : String),
      StudentApp.selectTable (StudentApp.normalize_qualification_type qualification_type)
          percentile T = some bands →
      StudentApp.findBandMeg score bands = some g →
      StudentApp.get_meg_for_prior_attainment (StudentApp.PAInput.num score)
        qualification_type percentile T kb =
        (g, StudentApp.get_points (some g)
              (StudentApp.normalize_qualification_type qualification_type) kb)) ∧
    (∀ kb : StudentApp.GPMap,
      StudentApp.get_meg_for_prior_attainment
        (StudentApp.PAInput.num StudentApp.sixPointEight) "A Level" 75
        StudentApp.exampleTables kb =
        ("B", StudentApp.get_points (some "B") "A Level" kb)) := by
  refine ⟨fun score lo hi m => rfl, fun score lo m => rfl,
    ?_, ?_, ?_, ?_⟩
  · intro score b rest h
    simp [StudentApp.findBandMeg, h]
  · intro score b rest h
    simp [StudentApp.findBandMeg, h]
  · intro qualification_type percentile T kb score bands g h1 h2
    exact meg_resolve_first_match qualification_type percentile T kb score bands g h1 h2
  · intro kb
    have hnorm : StudentApp.normalize_qualification_type "A Level" = "A Level" := by decide
    have h1 : StudentApp.selectTable
        (StudentApp.normalize_qualification_type "A Level") 75 StudentApp.exampleTables =
        some [StudentApp.exampleBand] := by
      rw [hnorm]
      decide
    have h2 : StudentApp.findBandMeg StudentApp.sixPointEight [StudentApp.exampleBand] =
        some "B" := by decide
    have := meg_resolve_first_match "A Level" 75 StudentApp.exampleTables kb
      StudentApp.sixPointEight [StudentApp.exampleBand] "B" h1 h2
    rw [this, hnorm]

/-- Claim C4, witness: the general parts applied at the concrete band and
score of spec Example 3 with an empty grade-points table. -/
theorem c4_witness :
    StudentApp.findBandMeg StudentApp.sixPointEight [StudentApp.exampleBand] =
      some (StudentApp.bandMeg StudentApp.exampleBand) ∧
    StudentApp.get_meg_for_prior_attainment
      (StudentApp.PAInput.num StudentApp.sixPointEight) "A Level" 75
      StudentApp.exampleTables [] = ("B", StudentApp.get_points (some "B") "A Level" []) :=
  ⟨c4_band_semantics.2.2.1 StudentApp.sixPointEight StudentApp.exampleBand [] (by decide),
   c4_band_semantics.2.2.2.2.2 []⟩

theorem aLevelFallbackPoints_nonneg (normalized_qual grade_cleaned : String) :
    0 ≤ StudentApp.aLevelFallbackPoints normalized_qual grade_cleaned := by
  unfold StudentApp.aLevelFallbackPoints
  split_ifs with h
  · rcases hA : alookup StudentApp.aLevelGradeFallbackTable grade_cleaned with _ | p
    · simp [hA]
    · simp only [hA]
      have hall : ∀ pr ∈ StudentApp.aLevelGradeFallbackTable, (0:Int) ≤ pr.2 := by decide
      exact hall _ (alookup_mem _ _ _ hA)
  · exact le_refl 0

theorem aliasPoints_mem (qual_specific_map : List (String × Int)) (grade_cleaned : String)
    (p : Int) (h : StudentApp.aliasPoints qual_specific_map grade_cleaned = some p) :
    ∃ k, (k, p) ∈ qual_specific_map := by
  unfold StudentApp.aliasPoints at h
  split_ifs at h
  · exact ⟨"D*", alookup_mem _ _ _ h⟩
  · exact ⟨"D", alookup_mem _ _ _ h⟩
  · exact ⟨"M", alookup_mem _ _ _ h⟩
  · exact ⟨"P", alookup_mem _ _ _ h⟩

/-- Claim C5: get_points is total and non-negative on every (qualification,
grade) pair whenever the loaded table conforms to the data model's
non-negative points invariant, and a None, empty or "N/A" grade
short-circuits to 0 for every table, without the table being consulted. -/
theorem c5_points_total (kb : StudentApp.GPMap) (qualification_type : String)
    (grade : Option String)
    (hkb : ∀ qp ∈ kb, ∀ gp ∈ qp.2, (0:Int) ≤ gp.2) :
    0 ≤ StudentApp.get_points grade qualification_type kb ∧
    (∀ kb2 : StudentApp.GPMap,
      StudentApp.get_points Option.none qualification_type kb2 = 0 ∧
      StudentApp.get_points (some "") qualification_type kb2 = 0 ∧
      StudentApp.get_points (some "N/A") qualification_type kb2 = 0) := by
  constructor
  · cases grade with
    | none => simp [StudentApp.get_points]
    | some g =>
      simp only [StudentApp.get_points]
      split_ifs with hshort hempty
      · exact le_refl 0
      · exact le_refl 0
      · rcases halo : alookup kb
            (StudentApp.normalize_qualification_type qualification_type) with _ | qmap
        · simp only [halo]
          exact aLevelFallbackPoints_nonneg _ _
        · simp only [halo]
          split_ifs with hqe
          · exact aLevelFallbackPoints_nonneg _ _
          · rcases hg : alookup qmap (pyUpper (pyStrip g)) with _ | p
            · simp only [hg]
              rcases ha : StudentApp.aliasPoints qmap (pyUpper (pyStrip g)) with _ | p2
              · simp [ha]
              · simp only [ha]
                obtain ⟨k, hk⟩ := aliasPoints_mem qmap _ p2 ha
                exact hkb _ (alookup_mem kb _ qmap halo) _ hk
            · simp only [hg]
              exact hkb _ (alookup_mem kb _ qmap halo) _ (alookup_mem qmap _ p hg)
  · intro kb2
    refine ⟨rfl, by simp [StudentApp.get_points], by simp [StudentApp.get_points]⟩

/-- Claim C5, witness at a concrete table and grade. -/
theorem c5_witness :
    (0:Int) ≤ StudentApp.get_points (some "A*") "A Level" [("A Level", [("A*", 56)])] ∧
    StudentApp.get_points Option.none "A Level" [("A Level", [("A*", 56)])] = 0 :=
  ⟨(c5_points_total [("A Level", [("A*", 56)])] "A Level" (some "A*") (by decide)).1,
   ((c5_points_total [("A Level", [("A*", 56)])] "A Level" (some "A*") (by decide)).2
      [("A Level", [("A*", 56)])]).1⟩

theorem ordBefore_total (x y : StudentApp.ScoredAct)
    (h : StudentApp.ordBefore x y = false) : StudentApp.ordBefore y x = true := by
  unfold StudentApp.ordBefore at h ⊢
  simp only [Bool.or_eq_false_iff, Bool.and_eq_false_iff, decide_eq_false_iff_not,
    Bool.or_eq_true, Bool.and_eq_true, decide_eq_true_eq] at h ⊢
  omega

theorem ordBefore_trans (x y z : StudentApp.ScoredAct)
    (h1 : StudentApp.ordBefore x y = true) (h2 : StudentApp.ordBefore y z = true) :
    StudentApp.ordBefore x z = true := by
  unfold StudentApp.ordBefore at h1 h2 ⊢
  simp only [Bool.or_eq_true, Bool.and_eq_true, decide_eq_true_eq] at h1 h2 ⊢
  omega

theorem mem_insertScored (a x : StudentApp.ScoredAct) (l : List StudentApp.ScoredAct) :
    a ∈ StudentApp.insertScored x l ↔ a = x ∨ a ∈ l := by
  induction l with
  | nil => simp [StudentApp.insertScored]
  | cons y ys ih =>
    unfold StudentApp.insertScored
    split
    · simp [List.mem_cons]
    · simp only [List.mem_cons, ih]
      tauto

theorem insertScored_pairwise (x : StudentApp.ScoredAct) (l : List StudentApp.ScoredAct)
    (h : l.Pairwise (fun a b => StudentApp.ordBefore a b = true)) :
    (StudentApp.insertScored x l).Pairwise (fun a b => StudentApp.ordBefore a b = true) := by
  induction l with
  | nil => simp [StudentApp.insertScored]
  | cons y ys ih =>
    rw [List.pairwise_cons] at h
    obtain ⟨hy, hys⟩ := h
    unfold StudentApp.insertScored
    split
    · rename_i hxy
      refine List.Pairwise.cons ?_ (List.Pairwise.cons hy hys)
      intro z hz
      rcases List.mem_cons.mp hz with rfl | hz2
      · exact hxy
      · exact ordBefore_trans x y z hxy (hy z hz2)
    · rename_i hxy
      have hyx : StudentApp.ordBefore y x = true :=
        ordBefore_total x y (Bool.not_eq_true _ ▸ Bool.of_not_eq_true hxy)
      refine List.Pairwise.cons ?_ (ih hys)
      intro z hz
      rcases (mem_insertScored z x ys).mp hz with rfl | hz2
      · exact hyx
      · exact hy z hz2

theorem sortScored_pairwise (l : List StudentApp.ScoredAct) :
    (StudentApp.sortScored l).Pairwise (fun a b => StudentApp.ordBefore a b = true) := by
  induction l with
  | nil => simp [StudentApp.sortScored]
  | cons x xs ih =>
    unfold StudentApp.sortScored
    exact insertScored_pairwise x _ ih

theorem dedupById_sublist (l : List StudentApp.ScoredAct) (seen : List String) :
    List.Sublist (StudentApp.dedupById l seen) l := by
  induction l generalizing seen with
  | nil => simp [StudentApp.dedupById]
  | cons x rest ih =>
    unfold StudentApp.dedupById
    split
    · exact List.Sublist.cons x (ih seen)
    · exact List.Sublist.cons₂ x (ih (x.2.2.id :: seen))

theorem primaryActivities_length_le (catalogue : List StudentApp.Activity)
    (ids : List String) (cnt : Nat) :
    (StudentApp.primaryActivities catalogue ids cnt).length ≤ 2 - cnt := by
  induction ids generalizing cnt with
  | nil => simp [StudentApp.primaryActivities]
  | cons act_id rest ih =>
    unfold StudentApp.primaryActivities
    split
    · simp
    · rename_i hcnt
      rcases hf : catalogue.find? (fun a => a.id = act_id) with _ | a
      · simp only [hf]
        exact ih cnt
      · simp only [hf, List.length_cons]
        have := ih (cnt + 1)
        omega

/-- Claim C9: the fallback keyword-retrieval activity list of a chat turn is
sorted by relevance score descending with ties broken by catalogue order
(Python's stable sort), and is truncated to at most two entries; the primary
linked-activity list is likewise capped at two. -/
theorem c9_retrieval_sorted_capped (catalogue : List StudentApp.Activity)
    (kws : List String) (inferred : Option String) (msg : String) (ids : List String) :
    (StudentApp.fallbackActivities catalogue kws inferred msg).Pairwise
      (fun x y => y.1 < x.1 ∨ (x.1 = y.1 ∧ x.2.1 ≤ y.2.1)) ∧
    (StudentApp.fallbackActivities catalogue kws inferred msg).length ≤ 2 ∧
    (StudentApp.primaryActivities catalogue ids 0).length ≤ 2 := by
  refine ⟨?_, ?_, ?_⟩
  · have hsorted := sortScored_pairwise
      (StudentApp.enumScored catalogue kws inferred msg)
    have htake : ((StudentApp.sortScored
        (StudentApp.enumScored catalogue kws inferred msg)).take 2).Pairwise
        (fun a b => StudentApp.ordBefore a b = true) :=
      hsorted.sublist (List.take_sublist 2 _)
    have hdedup := htake.sublist (dedupById_sublist ((StudentApp.sortScored
        (StudentApp.enumScored catalogue kws inferred msg)).take 2) [])
    refine hdedup.imp ?_
    intro a b hab
    revert hab
    unfold StudentApp.ordBefore
    simp only [Bool.or_eq_true, Bool.and_eq_true, decide_eq_true_eq]
    exact id
  · calc (StudentApp.fallbackActivities catalogue kws inferred msg).length
        ≤ ((StudentApp.sortScored
            (StudentApp.enumScored catalogue kws inferred msg)).take 2).length :=
          (dedupById_sublist _ []).length_le
      _ ≤ 2 := by simp [List.length_take]
  · simpa using primaryActivities_length_le catalogue ids 0

/-- Claim C2, counterexample: with exactly one prior user message (so a
prior-user-turn count below two) and no explicit activity-request phrase in
the message, chat_turn still assembles activity items into the context: the
activity gate fires from conversation depth 1 onward (app.py line 1757,
threshold lowered to depth 1), not from depth 2. -/
theorem c2_counterexample :
    StudentApp.conversationDepth StudentApp.cxHistory = 1 ∧
    StudentApp.userAskingForActivity "stress" = false ∧
    StudentApp.assembledActivities StudentApp.cxHistory "stress" true ["act1"]
      [StudentApp.cxActivity] Option.none ≠ [] := by
  refine ⟨by decide, by decide, by decide⟩

/-- Claim C2, amended: activity items are excluded from the assembled context
exactly in the zero-prior-user-message case — whenever the count of prior
user messages is 0 and the message carries no explicit activity-request
signal, both the primary and the fallback activity paths contribute nothing,
regardless of retrieval scores; from one prior user message onward (or on an
explicit request) activities may be included. -/
theorem c2_amended (chat_history : List StudentApp.ChatMsg) (current_user_message : String)
    (hasTarget : Bool) (retrieved_activity_ids : List String)
    (catalogue : List StudentApp.Activity) (inferred : Option String)
    (hdepth : StudentApp.conversationDepth chat_history = 0)
    (hask : StudentApp.userAskingForActivity current_user_message = false) :
    StudentApp.assembledActivities chat_history current_user_message hasTarget
      retrieved_activity_ids catalogue inferred = [] := by
  unfold StudentApp.assembledActivities
  simp [hdepth, hask]

/-- Claim C2, witness for the amended theorem at a concrete first turn. -/
theorem c2_witness :
    StudentApp.assembledActivities [] "hello" true ["act1"]
      [StudentApp.cxActivity] Option.none = [] :=
  c2_amended [] "hello" true ["act1"] [StudentApp.cxActivity] Option.none
    (by decide) (by decide)
